import Mathlib

/-!
Shallow embedding of the session-resilient ZooKeeper client
(`pkg/model/zookeeper/zk.go`) and the macro expansion helpers
(`pkg/model/common/namer/macro/macro.go`) of the clickhouse-operator
repository, together with theorems settling the spec claims.

Sessions are identified by natural numbers (the driver handle's identity);
driver faults are an explicit inductive type; the mutable `Connection`
struct becomes explicit state passing.  Goroutine interference on the
cached-session pointer is modelled by an oracle (`Attempt.midUpdate`)
giving the value a concurrent writer may have stored before the
invalidation critical section runs.
-/

namespace Zookeeper

/-- Faults produced by the driver and the client, mirroring zk.go:
`zk.ErrConnectionClosed`, `ctx.Err()`, the StateAuthFailed dial error,
the terminal `max retries number reached` error, and generic driver
faults (indexed by a code). -/
inductive ZkError where
  | connectionClosed
  | ctxCancelled
  | authFailed
  | maxRetriesReached
  | driver (code : Nat)
deriving DecidableEq, Repr

/-- The constant `maxRetriesNum = 3` of zk.go line 34. -/
def maxRetriesNum : Nat := 3

/-- The variable `maxConcurrentRequests int64 = 32` of zk.go line 37. -/
def maxConcurrentRequests : Nat := 32

/-- The variable `timeoutConnect = 30 * time.Second` of zk.go line 39,
in seconds. -/
def timeoutConnect : Nat := 30

/-- The mutable state of a `Connection`: the cached session pointer
`c.connection` (`none` = Go `nil`) plus a ghost log of sessions whose
transport `Close()` has been invoked, used to observe transport closing. -/
structure ConnState where
  conn : Option Nat
  closedSessions : List Nat
deriving DecidableEq, Repr

/-- The compare-and-clear pattern of zk.go lines 127-131 and 190-194:
under the lock, `c.connection` is set to `nil` only when it still holds
exactly the instance the caller used. -/
def invalidateIfSame (cache : Option Nat) (used : Nat) : Option Nat :=
  if cache = some used then none else cache

/-- `Connection.ensureConnection` (zk.go lines 142-156): under the lock,
return the cached session when present; otherwise dial (the dial's
outcome is supplied as an oracle), cache the fresh session on success.
The monitor spawn and auth injection are side effects with no bearing
on the returned value. -/
def ensureConnection (st : ConnState) (dialResult : Except ZkError Nat) :
    Except ZkError Nat × ConnState :=
  match st.conn with
  | some s => (Except.ok s, st)
  | none =>
    match dialResult with
    | Except.error e => (Except.error e, st)
    | Except.ok s => (Except.ok s, { st with conn := some s })

/-- Oracle for one iteration of the retry loop: the outcome dialing would
have (consulted only when the cache is empty), the error returned by the
wrapped driver call `fn` (`none` = Go `nil`), and the value a concurrent
goroutine stored into `c.connection` before this iteration's invalidation
critical section (`none` = no interference). -/
structure Attempt where
  dialResult : Except ZkError Nat
  opResult : Option ZkError
  midUpdate : Option (Option Nat)

/-- The `for i := 0; i < maxRetriesNum; i++` loop of `Connection.retry`
(zk.go lines 115-139), with `fuel` the remaining iterations and `i` the
attempt index.  A failed `ensureConnection` retries; a driver call
failing with the `connectionClosed` sentinel clears the cache if it is
still the session this attempt used, then retries; any other driver
result (success or fault) is returned to the caller at once; exhausted
fuel yields the terminal `maxRetriesReached` fault. -/
def retryLoop (env : Nat → Attempt) : Nat → Nat → ConnState →
    Option ZkError × ConnState
  | 0, _, st => (some ZkError.maxRetriesReached, st)
  | fuel + 1, i, st =>
    match ensureConnection st (env i).dialResult with
    | (Except.error _, st1) => retryLoop env fuel (i + 1) st1
    | (Except.ok s, st1) =>
      match (env i).opResult with
      | some e =>
        if e = ZkError.connectionClosed then
          let cacheAtLock := ((env i).midUpdate).getD st1.conn
          retryLoop env fuel (i + 1) { st1 with conn := invalidateIfSame cacheAtLock s }
        else (some e, st1)
      | none => (none, st1)

/-- `Connection.retry` (zk.go lines 109-140): `sema.Acquire` respects the
caller's cancellation (`gateCancelled` = the context fired while waiting
on the gate), returning `ctx.Err()` before any attempt; otherwise the
loop runs with `maxRetriesNum` iterations from attempt 0. -/
def retry (gateCancelled : Bool) (env : Nat → Attempt) (st : ConnState) :
    Option ZkError × ConnState :=
  if gateCancelled then (some ZkError.ctxCancelled, st)
  else retryLoop env maxRetriesNum 0 st

/-- `Connection.Close` (zk.go lines 100-107): under the lock, close the
cached session's transport when one is present; the cached pointer is
left untouched. -/
def close (st : ConnState) : ConnState :=
  match st.conn with
  | some s => { st with closedSessions := s :: st.closedSessions }
  | none => st

/-- Session states observable on the notification stream of the
go-zookeeper driver that zk.go inspects, plus the remaining informational
ones. -/
inductive ZkState where
  | connecting
  | connected
  | disconnected
  | authFailed
  | expired
  | hasSession
  | unknown
deriving DecidableEq, Repr

/-- `Connection.connectionEventsProcessor` (zk.go lines 180-203) reading
its session's event stream: `StateExpired` and `StateConnecting` set
`shouldCloseConnection` and fall through; they and `StateDisconnected`
clear the cache when it still holds this monitor's session and stop the
monitor (returning whether the transport was closed); every other state
is logged and the loop continues.  The result is the cache value after
the monitor stops together with the transport-closed flag. -/
def connectionEventsProcessor (connection : Nat) (cache : Option Nat) :
    List ZkState → Option Nat × Bool
  | [] => (cache, false)
  | ev :: rest =>
    match ev with
    | ZkState.expired => (invalidateIfSame cache connection, true)
    | ZkState.connecting => (invalidateIfSame cache connection, true)
    | ZkState.disconnected => (invalidateIfSame cache connection, false)
    | _ => connectionEventsProcessor connection cache rest

/-- One observation while `Connection.dial` (zk.go lines 214-228) waits in
its `select`: either the bounded context fired (`ctxDone`, covering both
caller cancellation and the 30s connect timeout) or an event arrived. -/
inductive DialObs where
  | ctxDone
  | ev (s : ZkState)
deriving DecidableEq, Repr

/-- The wait loop of `Connection.dial`: `ctx.Done()` closes the transport
and fails with the context error; `StateConnected` succeeds (transport
kept open); `StateAuthFailed` closes the transport and fails; any other
event is skipped.  `none` means the observation list ran out without a
decision (the real loop would still be blocked).  The `Bool` records
whether the partially established transport was closed. -/
def dialLoop : List DialObs → Option (Except ZkError Unit × Bool)
  | [] => none
  | DialObs.ctxDone :: _ => some (Except.error ZkError.ctxCancelled, true)
  | DialObs.ev ZkState.connected :: _ => some (Except.ok (), false)
  | DialObs.ev ZkState.authFailed :: _ => some (Except.error ZkError.authFailed, true)
  | DialObs.ev _ :: rest => dialLoop rest

/-- `Connection.dial` (zk.go lines 205-229): issue the connect call (its
outcome supplied as an oracle; a connect failure returns at once with no
transport to close), then block on the notification stream via
`dialLoop`; only on a `connected` notification is the session object
returned. -/
def dial (connectResult : Except ZkError Nat) (obs : List DialObs) :
    Option (Except ZkError Nat × Bool) :=
  match connectResult with
  | Except.error e => some (Except.error e, false)
  | Except.ok s =>
    match dialLoop obs with
    | none => none
    | some (Except.ok _, closed) => some (Except.ok s, closed)
    | some (Except.error e, closed) => some (Except.error e, closed)

/-- Outcome of `Connection.connect` (zk.go lines 231-273): either a
`log.Fatalf` (process abort — multi-host address with TLS, or TLS
material that fails to load) or reaching `zk.Connect` with the split
server list, plainly or through the TLS dialer pinned to a server name. -/
inductive ConnectOutcome where
  | fatalMultiHostTLS
  | fatalCertLoad
  | dialPlain (servers : List String)
  | dialTLS (servers : List String) (serverName : String)
deriving DecidableEq, Repr

/-- `Connection.connect` (zk.go lines 231-273): split the address on
commas; when both `certFile` and `keyFile` are configured, abort fatally
if the address contains a comma (more than one host), then load the
certificate pair and CA bundle (load outcomes supplied as oracles, a
failure being fatal) and dial through TLS pinned to the first
colon-separated component; otherwise dial plainly. -/
def connect (certFile keyFile : String) (certLoadOk caLoadOk : Bool)
    (address : String) : ConnectOutcome :=
  let servers := address.splitOn ","
  if certFile ≠ "" ∧ keyFile ≠ "" then
    if address.toList.contains ',' then ConnectOutcome.fatalMultiHostTLS
    else
      let serverName := (address.splitOn ":").headD ""
      if certLoadOk then
        if caLoadOk then ConnectOutcome.dialTLS servers serverName
        else ConnectOutcome.fatalCertLoad
      else ConnectOutcome.fatalCertLoad
  else ConnectOutcome.dialPlain servers

/-! Model of the concurrency gate (`golang.org/x/sync/semaphore.Weighted`
created by `NewConnection` with weight `maxConcurrentRequests`, zk.go
lines 55-60, acquired and released around every attempt loop, zk.go
lines 110-113).  Each calling goroutine is `idle` before `sema.Acquire`,
`running` between `Acquire` and the deferred `Release`, and `done`
afterwards; the semaphore's available weight is the limit minus the
number of running processes, so `Acquire` can step only while fewer than
the limit are running. -/

/-- Phase of one caller of `Connection.retry` with respect to the
concurrency gate. -/
inductive ProcPhase where
  | idle
  | running
  | done
deriving DecidableEq, Repr

/-- Number of callers currently holding a permit. -/
def runningCount (ps : List ProcPhase) : Nat :=
  ps.countP (fun a => a = ProcPhase.running)

/-- One transition of the gate system with limit `C`: process `i`
acquires its permit (possible only when a permit is free) or releases
the permit it holds. -/
inductive GateStep (C : Nat) : List ProcPhase → List ProcPhase → Prop
  | acquire (ps : List ProcPhase) (i : Nat) (h : ps[i]? = some ProcPhase.idle)
      (hc : runningCount ps < C) : GateStep C ps (ps.set i ProcPhase.running)
  | release (ps : List ProcPhase) (i : Nat) (h : ps[i]? = some ProcPhase.running) :
      GateStep C ps (ps.set i ProcPhase.done)

/-- The gate operations one call of `Connection.retry` performs:
a cancelled `sema.Acquire` returns holding nothing; a successful acquire
is paired with the deferred `sema.Release(1)` that runs on every exit
path of the function (zk.go lines 110-113). -/
def retryGateOps (gateCancelled : Bool) : List Bool :=
  if gateCancelled then [] else [true, false]

end Zookeeper

namespace Macros

/-!
Embedding of `pkg/model/common/namer/macro/macro.go`.  The scope held by
a `MacrosEngine` is `any` in Go and classified by a type switch; here it
is an inductive with one constructor per interface the switch
recognises, carrying the line replacer the corresponding
`newLineMacroReplacer*` constructor would build (the replacer's contents
come from the `short.Namer` and the address fields, which live outside
this repository slice), plus a constructor for every other value.
-/

/-- The scope of a `MacrosEngine`: a custom resource, cluster, shard or
host (each with the line-replacement function its macro replacer
performs), or any other value (the type switch's `default`). -/
inductive Scope where
  | cr (replacer : String → String)
  | cluster (replacer : String → String)
  | shard (replacer : String → String)
  | host (replacer : String → String)
  | other

/-- The `MacrosEngine` struct (macro.go lines 27-30); only the scope
matters here, the namer being folded into the replacer functions. -/
structure MacrosEngine where
  scope : Scope

/-- Modelled from the spec: `util.MapReplacer.Replace` lives outside the
given sources; per the spec the naming engine performs plain string
substitution, so the map replacer applies the line replacer to each
value of the (association-list) map. -/
def mapReplace (replacer : String → String) (m : List (String × String)) :
    List (String × String) :=
  m.map (fun p => (p.1, replacer p.2))

/-- `MacrosEngine.Line` (macro.go lines 41-54): dispatch on the scope's
dynamic type; any unrecognised scope yields the literal
`"unknown scope"`. -/
def MacrosEngine.Line (m : MacrosEngine) (line : String) : String :=
  match m.scope with
  | Scope.cr replacer => replacer line
  | Scope.cluster replacer => replacer line
  | Scope.shard replacer => replacer line
  | Scope.host replacer => replacer line
  | Scope.other => "unknown scope"

/-- `MacrosEngine.Map` (macro.go lines 57-72): dispatch on the scope's
dynamic type; any unrecognised scope yields the one-entry map sending
`"unknown scope"` to `"unknown scope"`. -/
def MacrosEngine.Map (m : MacrosEngine) (_map : List (String × String)) :
    List (String × String) :=
  match m.scope with
  | Scope.cr replacer => mapReplace replacer _map
  | Scope.cluster replacer => mapReplace replacer _map
  | Scope.shard replacer => mapReplace replacer _map
  | Scope.host replacer => mapReplace replacer _map
  | Scope.other => [("unknown scope", "unknown scope")]

/-- The cluster-scope address fields of a host consulted by
`clusterScopeIndexOfPreviousCycleTail`; Go `int` is modelled as `Int`. -/
structure HostAddress where
  clusterScopeIndex : Int
  clusterScopeCycleOffset : Int
deriving DecidableEq, Repr

/-- `clusterScopeIndexOfPreviousCycleTail` (macro.go lines 120-139): at a
cycle head (offset 0) other than the very first host of the cluster,
point to the previous host; otherwise point to the host itself. -/
def clusterScopeIndexOfPreviousCycleTail (host : HostAddress) : Int :=
  if host.clusterScopeCycleOffset = 0 then
    if host.clusterScopeIndex = 0 then host.clusterScopeIndex
    else host.clusterScopeIndex - 1
  else host.clusterScopeIndex

end Macros

namespace Zookeeper

/-- Environment in which every attempt dials successfully (session 5) and
the driver call fails with a generic (non-sentinel) fault, code 7. -/
def envDriverFault : Nat → Attempt :=
  fun _ => ⟨Except.ok 5, some (ZkError.driver 7), none⟩

/-- Environment in which every attempt's dial fails with the caller's
cancellation fault (the context fired during the dial handshake). -/
def envDialCancelled : Nat → Attempt :=
  fun _ => ⟨Except.error ZkError.ctxCancelled, none, none⟩

/-- Environment in which every attempt dials session 5 and the driver
call fails with the session-closed sentinel, with no concurrent
interference. -/
def envSessionClosed : Nat → Attempt :=
  fun _ => ⟨Except.ok 5, some ZkError.connectionClosed, none⟩

end Zookeeper

namespace Macros

/-- C9: with a scope that is none of custom resource, cluster, shard or
host, `MacrosEngine.Line` returns the literal `"unknown scope"` for every
input line and `MacrosEngine.Map` returns the one-entry map sending
`"unknown scope"` to `"unknown scope"` for every input map; the inputs
are ignored. -/
theorem line_map_unknown_scope (sc : Scope)
    (hcr : ∀ r, sc ≠ Scope.cr r) (hcl : ∀ r, sc ≠ Scope.cluster r)
    (hsh : ∀ r, sc ≠ Scope.shard r) (hh : ∀ r, sc ≠ Scope.host r) :
    ∀ (line : String) (m : List (String × String)),
      (MacrosEngine.mk sc).Line line = "unknown scope" ∧
      (MacrosEngine.mk sc).Map m = [("unknown scope", "unknown scope")] := by
  intro line m
  cases sc with
  | cr r => exact absurd rfl (hcr r)
  | cluster r => exact absurd rfl (hcl r)
  | shard r => exact absurd rfl (hsh r)
  | host r => exact absurd rfl (hh r)
  | other => exact ⟨rfl, rfl⟩

/-- Witness for C9 at the default scope with concrete inputs. -/
theorem line_map_unknown_scope_witness :
    (MacrosEngine.mk Scope.other).Line "{chi}-{cluster}" = "unknown scope" ∧
    (MacrosEngine.mk Scope.other).Map [("k", "{chi}")] =
      [("unknown scope", "unknown scope")] :=
  line_map_unknown_scope Scope.other (fun _r h => nomatch h) (fun _r h => nomatch h)
    (fun _r h => nomatch h) (fun _r h => nomatch h) "{chi}-{cluster}" [("k", "{chi}")]

/-- C10 fails as stated: at a host with cluster-scope index `-1` and
cycle offset `0`, the code returns the index minus one (`-2`) although
the claimed condition `index > 0` does not hold, so the result is not
the index unchanged. -/
theorem prev_cycle_tail_cex :
    clusterScopeIndexOfPreviousCycleTail ⟨-1, 0⟩ = -1 - 1 ∧
    ¬((0 : Int) = 0 ∧ (-1 : Int) > 0) ∧
    clusterScopeIndexOfPreviousCycleTail ⟨-1, 0⟩ ≠ -1 := by
  refine ⟨by decide, by decide, by decide⟩

/-- C10 amended: `clusterScopeIndexOfPreviousCycleTail` returns the
host's cluster-scope index minus one exactly when the cycle offset is 0
and the index is nonzero, and otherwise returns the index unchanged;
whenever the index is non-negative the result is non-negative. -/
theorem prev_cycle_tail_correct (host : HostAddress) :
    (clusterScopeIndexOfPreviousCycleTail host = host.clusterScopeIndex - 1 ↔
      host.clusterScopeCycleOffset = 0 ∧ host.clusterScopeIndex ≠ 0) ∧
    (¬(host.clusterScopeCycleOffset = 0 ∧ host.clusterScopeIndex ≠ 0) →
      clusterScopeIndexOfPreviousCycleTail host = host.clusterScopeIndex) ∧
    (0 ≤ host.clusterScopeIndex → 0 ≤ clusterScopeIndexOfPreviousCycleTail host) := by
  unfold clusterScopeIndexOfPreviousCycleTail
  rcases host with ⟨idx, off⟩
  by_cases hoff : off = 0 <;> by_cases hidx : idx = 0 <;>
    simp [hoff, hidx] <;> omega

/-- Witness for C10 amended: the non-head case and the non-negativity
consequence at concrete hosts. -/
theorem prev_cycle_tail_correct_witness :
    clusterScopeIndexOfPreviousCycleTail ⟨5, 2⟩ = 5 ∧
    (0 ≤ (3 : Int) ∧ 0 ≤ clusterScopeIndexOfPreviousCycleTail ⟨3, 0⟩) :=
  ⟨(prev_cycle_tail_correct ⟨5, 2⟩).2.1 (by decide),
   ⟨by decide, (prev_cycle_tail_correct ⟨3, 0⟩).2.2 (by decide)⟩⟩

end Macros

namespace Zookeeper

/-- C2 fails as stated: on a `Connecting` notification the monitor does
not continue informationally; with the cache still holding its own
session (session 1) it clears the cache, closes the transport and stops,
where the claim requires no action and continued consumption (which
would end with the cache untouched and the transport open). -/
theorem monitor_connecting_cex :
    connectionEventsProcessor 1 (some 1) [ZkState.connecting] = (none, true) ∧
    connectionEventsProcessor 1 (some 1) [ZkState.connecting] ≠
      ((some 1 : Option Nat), false) := by
  refine ⟨rfl, by decide⟩

/-- C2 amended: on `Disconnected` the monitor clears the cache only if it
still holds this monitor's session, does not close the transport, and
stops; on `Expired` and also on `Connecting` it clears the cache the same
way, closes the transport, and stops; `Connected` and `AuthFailed` (and
the remaining states) cause no action and the monitor continues consuming
the stream. -/
theorem monitor_events (connection : Nat) (cache : Option Nat) (rest : List ZkState) :
    connectionEventsProcessor connection cache (ZkState.disconnected :: rest) =
      (invalidateIfSame cache connection, false) ∧
    connectionEventsProcessor connection cache (ZkState.expired :: rest) =
      (invalidateIfSame cache connection, true) ∧
    connectionEventsProcessor connection cache (ZkState.connecting :: rest) =
      (invalidateIfSame cache connection, true) ∧
    connectionEventsProcessor connection cache (ZkState.connected :: rest) =
      connectionEventsProcessor connection cache rest ∧
    connectionEventsProcessor connection cache (ZkState.authFailed :: rest) =
      connectionEventsProcessor connection cache rest ∧
    connectionEventsProcessor connection cache (ZkState.hasSession :: rest) =
      connectionEventsProcessor connection cache rest ∧
    connectionEventsProcessor connection cache (ZkState.unknown :: rest) =
      connectionEventsProcessor connection cache rest ∧
    invalidateIfSame (some connection) connection = none ∧
    (cache ≠ some connection → invalidateIfSame cache connection = cache) := by
  refine ⟨rfl, rfl, rfl, rfl, rfl, rfl, rfl, by simp [invalidateIfSame], ?_⟩
  intro h
  simp [invalidateIfSame, h]

/-- Witness for C2 amended: a monitor for session 2 observing
`Disconnected` while the cache holds session 9 leaves the cache alone,
does not close the transport and stops. -/
theorem monitor_events_witness :
    connectionEventsProcessor 2 (some 9) [ZkState.disconnected] =
      (invalidateIfSame (some 9) 2, false) ∧
    invalidateIfSame (some 9) 2 = some 9 :=
  ⟨(monitor_events 2 (some 9) []).1,
   (monitor_events 2 (some 9) []).2.2.2.2.2.2.2.2 (by decide)⟩

/-- C8: `Close` closes the cached session's transport when one is present
but leaves the cached pointer in place, so the closed session remains
current and a subsequent operation's `ensureConnection` hands the closed
handle to the driver without dialing afresh. -/
theorem close_keeps_cached_session (st : ConnState) (s : Nat)
    (h : st.conn = some s) :
    (close st).conn = some s ∧
    s ∈ (close st).closedSessions ∧
    (∀ d, ensureConnection (close st) d = (Except.ok s, close st)) := by
  rcases st with ⟨conn, closed⟩
  subst h
  refine ⟨rfl, List.mem_cons_self _ _, fun d => rfl⟩

/-- Witness for C8 at a connection whose cache holds session 5. -/
theorem close_keeps_cached_session_witness :
    (close ⟨some 5, []⟩).conn = some 5 ∧
    5 ∈ (close ⟨some 5, []⟩).closedSessions ∧
    ensureConnection (close ⟨some 5, []⟩) (Except.error ZkError.ctxCancelled) =
      (Except.ok 5, close ⟨some 5, []⟩) :=
  ⟨(close_keeps_cached_session ⟨some 5, []⟩ 5 rfl).1,
   (close_keeps_cached_session ⟨some 5, []⟩ 5 rfl).2.1,
   (close_keeps_cached_session ⟨some 5, []⟩ 5 rfl).2.2 (Except.error ZkError.ctxCancelled)⟩

/-- C4: when both a TLS certificate and a key are configured and the
address names more than one host (contains a comma), `connect` aborts
fatally before reaching the driver's connect call, whatever the TLS
material would have loaded to; the outcome is not a dial, so the
condition can never become a per-call retryable fault. -/
theorem connect_multi_host_tls_fatal (certFile keyFile : String)
    (certLoadOk caLoadOk : Bool) (address : String)
    (hcert : certFile ≠ "") (hkey : keyFile ≠ "")
    (hmulti : address.toList.contains ',' = true) :
    connect certFile keyFile certLoadOk caLoadOk address =
      ConnectOutcome.fatalMultiHostTLS ∧
    (∀ servers, connect certFile keyFile certLoadOk caLoadOk address ≠
      ConnectOutcome.dialPlain servers) ∧
    (∀ servers serverName, connect certFile keyFile certLoadOk caLoadOk address ≠
      ConnectOutcome.dialTLS servers serverName) := by
  have h1 : connect certFile keyFile certLoadOk caLoadOk address =
      ConnectOutcome.fatalMultiHostTLS := by
    unfold connect
    rw [if_pos ⟨hcert, hkey⟩, if_pos hmulti]
  refine ⟨h1, fun servers h2 => ?_, fun servers serverName h2 => ?_⟩
  · rw [h1] at h2
    exact ConnectOutcome.noConfusion h2
  · rw [h1] at h2
    exact ConnectOutcome.noConfusion h2

/-- Witness for C4: a concrete certificate/key configuration with a
two-host address aborts fatally. -/
theorem connect_multi_host_tls_fatal_witness :
    ("client.crt" : String) ≠ "" ∧ ("client.key" : String) ≠ "" ∧
    ("zk1:2181,zk2:2181").toList.contains ',' = true ∧
    connect "client.crt" "client.key" true true "zk1:2181,zk2:2181" =
      ConnectOutcome.fatalMultiHostTLS :=
  ⟨by decide, by decide, by decide,
   (connect_multi_host_tls_fatal "client.crt" "client.key" true true
      "zk1:2181,zk2:2181" (by decide) (by decide) (by decide)).1⟩

/-- In the dial wait loop, a success decision always reports the
transport as not closed. -/
theorem dialLoop_ok_not_closed :
    ∀ (obs : List DialObs) (u : Unit) (c : Bool),
      dialLoop obs = some (Except.ok u, c) → c = false := by
  intro obs
  induction obs with
  | nil => intro u c h; simp [dialLoop] at h
  | cons hd tl ih =>
    intro u c h
    cases hd with
    | ctxDone => simp [dialLoop] at h
    | ev s =>
      cases s <;> simp [dialLoop] at h <;> first
        | (exact ih () c h)
        | (exact h)

/-- In the dial wait loop, a failure decision always closes the partially
established transport. -/
theorem dialLoop_error_closed :
    ∀ (obs : List DialObs) (e : ZkError) (c : Bool),
      dialLoop obs = some (Except.error e, c) → c = true := by
  intro obs
  induction obs with
  | nil => intro e c h; simp [dialLoop] at h
  | cons hd tl ih =>
    intro e c h
    cases hd with
    | ctxDone =>
      simp [dialLoop] at h
      first
        | (exact h)
        | (exact h.symm)
        | (exact h.2)
    | ev s =>
      cases s <;> simp [dialLoop] at h <;> first
        | (exact ih e c h)
        | (exact h)
        | (exact h.symm)
        | (exact h.2)

/-- C6: dialing issues the connect call and then blocks on the session's
notification stream, bounded by the 30 second connect timeout: a
`connected` notification returns the session with its transport open; an
`authFailed` notification or the deadline/cancellation (`ctxDone`) fails
the dial with the partially established transport closed; every other
notification is skipped; a session is returned to the caller only when
the connect call succeeded and `connected` was observed, and any failure
after a successful connect closes the transport. -/
theorem dial_handshake :
    timeoutConnect = 30 ∧
    (∀ (s : Nat) (rest : List DialObs),
      dial (Except.ok s) (DialObs.ev ZkState.connected :: rest) =
        some (Except.ok s, false)) ∧
    (∀ (s : Nat) (rest : List DialObs),
      dial (Except.ok s) (DialObs.ev ZkState.authFailed :: rest) =
        some (Except.error ZkError.authFailed, true)) ∧
    (∀ (s : Nat) (rest : List DialObs),
      dial (Except.ok s) (DialObs.ctxDone :: rest) =
        some (Except.error ZkError.ctxCancelled, true)) ∧
    (∀ (s : Nat) (st : ZkState) (rest : List DialObs),
      st ≠ ZkState.connected → st ≠ ZkState.authFailed →
      dial (Except.ok s) (DialObs.ev st :: rest) = dial (Except.ok s) rest) ∧
    (∀ (cr : Except ZkError Nat) (obs : List DialObs) (s : Nat) (c : Bool),
      dial cr obs = some (Except.ok s, c) → cr = Except.ok s ∧ c = false) ∧
    (∀ (s : Nat) (obs : List DialObs) (e : ZkError) (c : Bool),
      dial (Except.ok s) obs = some (Except.error e, c) → c = true) := by
  refine ⟨rfl, fun s rest => rfl, fun s rest => rfl, fun s rest => rfl,
    ?_, ?_, ?_⟩
  · intro s st rest h1 h2
    cases st <;> first | rfl | (exact absurd rfl h1) | (exact absurd rfl h2)
  · intro cr obs s c h
    cases cr with
    | error e => simp [dial] at h
    | ok s0 =>
      simp only [dial] at h
      cases hdl : dialLoop obs with
      | none => rw [hdl] at h; exact absurd h (by simp)
      | some r =>
        rw [hdl] at h
        rcases r with ⟨res, closed⟩
        cases res with
        | ok u =>
          simp at h
          exact ⟨by rw [h.1], by rw [← h.2]; exact dialLoop_ok_not_closed obs u closed hdl⟩
        | error e => simp at h
  · intro s obs e c h
    simp only [dial] at h
    cases hdl : dialLoop obs with
    | none => rw [hdl] at h; exact absurd h (by simp)
    | some r =>
      rw [hdl] at h
      rcases r with ⟨res, closed⟩
      cases res with
      | ok u => simp at h
      | error e0 =>
        simp at h
        rw [← h.2]
        exact dialLoop_error_closed obs e0 closed hdl

/-- Witness for C6: concrete dials exercising the success case, the
skip of an informational event, and the closed-transport consequence of
a failure decision. -/
theorem dial_handshake_witness :
    dial (Except.ok 7) [DialObs.ev ZkState.connected] = some (Except.ok 7, false) ∧
    dial (Except.ok 7) [DialObs.ev ZkState.connecting, DialObs.ctxDone] =
      dial (Except.ok 7) [DialObs.ctxDone] ∧
    (Except.ok 7 = (Except.ok 7 : Except ZkError Nat) ∧ false = false) ∧
    true = true :=
  ⟨dial_handshake.2.1 7 [],
   dial_handshake.2.2.2.2.1 7 ZkState.connecting [DialObs.ctxDone]
     (by decide) (by decide),
   dial_handshake.2.2.2.2.2.1 (Except.ok 7) [DialObs.ev ZkState.connected] 7 false rfl,
   dial_handshake.2.2.2.2.2.2 7 [DialObs.ctxDone] ZkError.ctxCancelled true rfl⟩

/-- An attempt whose `ensureConnection` fails (empty cache and failing
dial) leaves the state untouched and retries. -/
theorem retryLoop_dial_error_step (env : Nat → Attempt) (fuel i : Nat)
    (st : ConnState) (e : ZkError) (hconn : st.conn = none)
    (hd : (env i).dialResult = Except.error e) :
    retryLoop env (fuel + 1) i st = retryLoop env fuel (i + 1) st := by
  simp only [retryLoop, ensureConnection, hconn, hd]

/-- An attempt whose driver call fails with the session-closed sentinel
invalidates the cache (against the possibly concurrently updated value)
and retries. -/
theorem retryLoop_sentinel_step (env : Nat → Attempt) (fuel i : Nat)
    (st st1 : ConnState) (s : Nat)
    (hens : ensureConnection st (env i).dialResult = (Except.ok s, st1))
    (hop : (env i).opResult = some ZkError.connectionClosed) :
    retryLoop env (fuel + 1) i st =
      retryLoop env fuel (i + 1)
        { st1 with conn := invalidateIfSame (((env i).midUpdate).getD st1.conn) s } := by
  simp only [retryLoop, hens, hop, if_pos]

/-- An attempt whose driver call returns a non-sentinel result (success
or any other fault) ends the loop at once with that result. -/
theorem retryLoop_result_step (env : Nat → Attempt) (fuel i : Nat)
    (st st1 : ConnState) (s : Nat) (r : Option ZkError)
    (hens : ensureConnection st (env i).dialResult = (Except.ok s, st1))
    (hop : (env i).opResult = r) (hr : r ≠ some ZkError.connectionClosed) :
    retryLoop env (fuel + 1) i st = (r, st1) := by
  cases r with
  | none => simp only [retryLoop, hens, hop]
  | some e =>
    have hec : e ≠ ZkError.connectionClosed := fun he => hr (by rw [he])
    simp only [retryLoop, hens, hop]
    simp [hec]

/-- Every attempt whose oracle marks the driver call as failing with the
session-closed sentinel retries, whatever the state, the dial outcome
and any concurrent interference. -/
theorem retryLoop_retryable_step (env : Nat → Attempt) (fuel i : Nat)
    (st : ConnState)
    (hop : (env i).opResult = some ZkError.connectionClosed) :
    ∃ st2, retryLoop env (fuel + 1) i st = retryLoop env fuel (i + 1) st2 := by
  cases hconn : st.conn with
  | some s =>
    have hens : ensureConnection st (env i).dialResult = (Except.ok s, st) := by
      simp [ensureConnection, hconn]
    exact ⟨_, retryLoop_sentinel_step env fuel i st st s hens hop⟩
  | none =>
    cases hd : (env i).dialResult with
    | error e => exact ⟨st, retryLoop_dial_error_step env fuel i st e hconn hd⟩
    | ok s =>
      have hens : ensureConnection st (env i).dialResult =
          (Except.ok s, { st with conn := some s }) := by
        simp [ensureConnection, hconn, hd]
      exact ⟨_, retryLoop_sentinel_step env fuel i st _ s hens hop⟩

/-- The retry loop consults only the attempts its fuel reaches: two
environments agreeing on attempts `i, …, i + fuel - 1` drive it
identically. -/
theorem retryLoop_congr (env env2 : Nat → Attempt) :
    ∀ (fuel i : Nat) (st : ConnState),
      (∀ j, j < i + fuel → env j = env2 j) →
      retryLoop env fuel i st = retryLoop env2 fuel i st := by
  intro fuel
  induction fuel with
  | zero => intro i st _h; rfl
  | succ fuel ih =>
    intro i st h
    have he : env i = env2 i := h i (by omega)
    have hnext : ∀ j, j < (i + 1) + fuel → env j = env2 j := by
      intro j hj
      exact h j (by omega)
    simp only [retryLoop, he]
    cases hens : ensureConnection st (env2 i).dialResult with
    | mk r st1 =>
      cases r with
      | error e => exact ih (i + 1) st1 hnext
      | ok s =>
        cases hop : (env2 i).opResult with
        | none => rfl
        | some e =>
          by_cases hce : e = ZkError.connectionClosed
          · subst hce
            exact ih (i + 1)
              { st1 with conn := invalidateIfSame (((env2 i).midUpdate).getD st1.conn) s }
              hnext
          · simp [hce]

/-- C1 fails as stated: with the cache empty and every attempt's dial
succeeding with session 5 but the driver call failing with the generic
fault `driver 7`, the caller receives that fault immediately after the
first attempt — the non-sentinel fault is not retried and the terminal
exhausted-retries fault is never produced. -/
theorem retry_nonsentinel_cex :
    retry false envDriverFault ⟨none, []⟩ =
      (some (ZkError.driver 7), ⟨some 5, []⟩) ∧
    some (ZkError.driver 7) ≠ some ZkError.maxRetriesReached := by
  refine ⟨rfl, by decide⟩

/-- C1 amended: `maxRetriesNum` is 3; an attempt whose driver call
returns any non-sentinel result — success or fault — ends the loop at
once with exactly that result, so only dial failures and the
session-closed sentinel are retried; when every attempt fails with the
sentinel (or the dial keeps failing) the loop performs exactly
`maxRetriesNum` attempts and the caller receives the terminal
exhausted-retries fault; and the loop never consults an attempt beyond
index `maxRetriesNum - 1`. -/
theorem retry_fault_propagation :
    maxRetriesNum = 3 ∧
    (∀ (env : Nat → Attempt) (fuel i : Nat) (st st1 : ConnState) (s : Nat)
        (r : Option ZkError),
      ensureConnection st (env i).dialResult = (Except.ok s, st1) →
      (env i).opResult = r → r ≠ some ZkError.connectionClosed →
      retryLoop env (fuel + 1) i st = (r, st1)) ∧
    (∀ (env : Nat → Attempt) (st : ConnState),
      (∀ i, i < maxRetriesNum → (env i).opResult = some ZkError.connectionClosed) →
      (retry false env st).1 = some ZkError.maxRetriesReached) ∧
    (∀ (env env2 : Nat → Attempt) (b : Bool) (st : ConnState),
      (∀ i, i < maxRetriesNum → env i = env2 i) →
      retry b env st = retry b env2 st) := by
  refine ⟨rfl, retryLoop_result_step, ?_, ?_⟩
  · intro env st h
    obtain ⟨st1, h1⟩ := retryLoop_retryable_step env 2 0 st (h 0 (by decide))
    obtain ⟨st2, h2⟩ := retryLoop_retryable_step env 1 1 st1 (h 1 (by decide))
    obtain ⟨st3, h3⟩ := retryLoop_retryable_step env 0 2 st2 (h 2 (by decide))
    show (retryLoop env 3 0 st).1 = some ZkError.maxRetriesReached
    rw [show (3 : Nat) = 2 + 1 from rfl, h1,
      show (2 : Nat) = 1 + 1 from rfl, h2,
      show (1 : Nat) = 0 + 1 from rfl, h3]
    rfl
  · intro env env2 b st h
    cases b with
    | true => rfl
    | false =>
      show retryLoop env maxRetriesNum 0 st = retryLoop env2 maxRetriesNum 0 st
      exact retryLoop_congr env env2 maxRetriesNum 0 st (fun j hj => h j (by simpa using hj))

/-- Witness for C1 amended: three consecutive session-closed faults on
concrete attempts exhaust the retries. -/
theorem retry_fault_propagation_witness :
    (retry false envSessionClosed ⟨none, []⟩).1 = some ZkError.maxRetriesReached :=
  retry_fault_propagation.2.2.1 envSessionClosed ⟨none, []⟩ (fun _i _hi => rfl)

/-- C3: when an attempt's driver call fails with the session-closed
sentinel, the cached session is cleared only if the cache (as possibly
rewritten by a concurrent caller before the critical section) still
holds exactly the instance the failing attempt used, and the loop
retries; when the cache no longer holds that instance — including when
it is already empty — the invalidation leaves the cache untouched, and
a cached session is always returned by `ensureConnection` without any
dial, so no redial happens outside the lazy-dial path and the
invalidation itself raises no fault. -/
theorem retry_sentinel_invalidation :
    (∀ (env : Nat → Attempt) (fuel i : Nat) (st st1 : ConnState) (s : Nat),
      ensureConnection st (env i).dialResult = (Except.ok s, st1) →
      (env i).opResult = some ZkError.connectionClosed →
      retryLoop env (fuel + 1) i st =
        retryLoop env fuel (i + 1)
          { st1 with conn := invalidateIfSame (((env i).midUpdate).getD st1.conn) s }) ∧
    (∀ s : Nat, invalidateIfSame (some s) s = none) ∧
    (∀ (cache : Option Nat) (s : Nat), cache ≠ some s →
      invalidateIfSame cache s = cache) ∧
    (∀ (st : ConnState) (d : Except ZkError Nat) (s : Nat), st.conn = some s →
      ensureConnection st d = (Except.ok s, st)) := by
  refine ⟨retryLoop_sentinel_step, ?_, ?_, ?_⟩
  · intro s
    simp [invalidateIfSame]
  · intro cache s h
    simp [invalidateIfSame, h]
  · intro st d s h
    simp [ensureConnection, h]

/-- Witness for C3: a concrete sentinel-failing attempt invalidates the
session it used and retries; clearing is a no-op on an empty cache and
on a replaced cache; a cached session short-circuits `ensureConnection`. -/
theorem retry_sentinel_invalidation_witness :
    retryLoop envSessionClosed 1 0 ⟨none, []⟩ =
      retryLoop envSessionClosed 0 1
        ⟨invalidateIfSame (((envSessionClosed 0).midUpdate).getD (some 5)) 5, []⟩ ∧
    invalidateIfSame (some 5) 5 = none ∧
    invalidateIfSame none 5 = none ∧
    invalidateIfSame (some 9) 5 = some 9 ∧
    ensureConnection ⟨some 9, []⟩ (Except.error ZkError.ctxCancelled) =
      (Except.ok 9, ⟨some 9, []⟩) := by
  refine ⟨retry_sentinel_invalidation.1 envSessionClosed 0 0 ⟨none, []⟩
      ⟨some 5, []⟩ 5 rfl rfl,
    retry_sentinel_invalidation.2.1 5,
    retry_sentinel_invalidation.2.2.1 none 5 (by decide),
    retry_sentinel_invalidation.2.2.1 (some 9) 5 (by decide),
    retry_sentinel_invalidation.2.2.2 ⟨some 9, []⟩ (Except.error ZkError.ctxCancelled) 9 rfl⟩

/-- C5 fails as stated for the dial case: with the caller's context fired
during every dial handshake (each dial failing with the cancellation
fault and an empty cache), the operation is retried to exhaustion and
the caller receives the exhausted-retries fault, not the cancellation
fault. -/
theorem retry_cancellation_cex :
    retry false envDialCancelled ⟨none, []⟩ =
      (some ZkError.maxRetriesReached, ⟨none, []⟩) ∧
    some ZkError.maxRetriesReached ≠ some ZkError.ctxCancelled := by
  refine ⟨rfl, by decide⟩

/-- C5 amended: a cancellation that fires while the operation waits on
the concurrency gate is surfaced immediately to the caller — before any
attempt, whatever the attempt oracles would do — and is never retried;
a cancellation firing during the dial handshake instead fails that
attempt like any dial failure and is retried, surfacing the terminal
exhausted-retries fault if it persists across all attempts. -/
theorem retry_cancellation :
    (∀ (env : Nat → Attempt) (st : ConnState),
      retry true env st = (some ZkError.ctxCancelled, st)) ∧
    (∀ (env env2 : Nat → Attempt) (st : ConnState),
      retry true env st = retry true env2 st) ∧
    (∀ (env : Nat → Attempt) (st : ConnState), st.conn = none →
      (∀ i, i < maxRetriesNum → (env i).dialResult = Except.error ZkError.ctxCancelled) →
      retry false env st = (some ZkError.maxRetriesReached, st)) := by
  refine ⟨fun env st => rfl, fun env env2 st => rfl, ?_⟩
  intro env st hconn h
  show retryLoop env 3 0 st = (some ZkError.maxRetriesReached, st)
  rw [show (3 : Nat) = 2 + 1 from rfl,
    retryLoop_dial_error_step env 2 0 st ZkError.ctxCancelled hconn (h 0 (by decide)),
    show (2 : Nat) = 1 + 1 from rfl,
    retryLoop_dial_error_step env 1 1 st ZkError.ctxCancelled hconn (h 1 (by decide)),
    show (1 : Nat) = 0 + 1 from rfl,
    retryLoop_dial_error_step env 0 2 st ZkError.ctxCancelled hconn (h 2 (by decide))]
  rfl

/-- Witness for C5 amended: gate cancellation returns the cancellation
fault at once on a concrete state, and persistent dial cancellation on a
concrete environment exhausts the retries. -/
theorem retry_cancellation_witness :
    retry true envDriverFault ⟨some 4, []⟩ = (some ZkError.ctxCancelled, ⟨some 4, []⟩) ∧
    retry false envDialCancelled ⟨none, [3]⟩ =
      (some ZkError.maxRetriesReached, ⟨none, [3]⟩) :=
  ⟨retry_cancellation.1 envDriverFault ⟨some 4, []⟩,
   retry_cancellation.2.2 envDialCancelled ⟨none, [3]⟩ rfl (fun _i _hi => rfl)⟩

/-- An `acquire` transition raises the number of running callers by
exactly one. -/
theorem runningCount_acquire (ps : List ProcPhase) (i : Nat)
    (h : ps[i]? = some ProcPhase.idle) :
    runningCount (ps.set i ProcPhase.running) = runningCount ps + 1 := by
  obtain ⟨hlen, hget⟩ := List.getElem?_eq_some_iff.mp h
  have hc := List.countP_set (fun a => decide (a = ProcPhase.running)) ps i
    ProcPhase.running hlen
  rw [hget] at hc
  have hc2 : (ps.set i ProcPhase.running).countP
        (fun a => decide (a = ProcPhase.running)) =
      ps.countP (fun a => decide (a = ProcPhase.running)) - 0 + 1 := hc
  simp only [runningCount]
  omega

/-- A `release` transition lowers the number of running callers by
exactly one. -/
theorem runningCount_release (ps : List ProcPhase) (i : Nat)
    (h : ps[i]? = some ProcPhase.running) :
    runningCount (ps.set i ProcPhase.done) + 1 = runningCount ps := by
  obtain ⟨hlen, hget⟩ := List.getElem?_eq_some_iff.mp h
  have hc := List.countP_set (fun a => decide (a = ProcPhase.running)) ps i
    ProcPhase.done hlen
  rw [hget] at hc
  have hle := List.boole_getElem_le_countP
    (fun a => decide (a = ProcPhase.running)) ps i hlen
  rw [hget] at hle
  have hc2 : (ps.set i ProcPhase.done).countP
        (fun a => decide (a = ProcPhase.running)) =
      ps.countP (fun a => decide (a = ProcPhase.running)) - 1 + 0 := hc
  have hle2 : 1 ≤ ps.countP (fun a => decide (a = ProcPhase.running)) := hle
  simp only [runningCount]
  omega

/-- C7: `NewConnection` builds the gate with the default limit 32; in
the gate transition system, every state reachable from any number of
idle callers keeps at most `C` callers inside the driver call
simultaneously; from a saturated state every possible transition
strictly lowers the running count (so no further caller can enter until
a permit is released); and one call of `retry` performs exactly as many
gate releases as acquires — the deferred release runs on every exit
path, including the cancelled acquire that never held a permit. -/
theorem gate_concurrency_bound :
    maxConcurrentRequests = 32 ∧
    (∀ (C n : Nat) (ps : List ProcPhase),
      Relation.ReflTransGen (GateStep C) (List.replicate n ProcPhase.idle) ps →
      runningCount ps ≤ C) ∧
    (∀ (C : Nat) (ps qs : List ProcPhase), GateStep C ps qs →
      C ≤ runningCount ps → runningCount qs < runningCount ps) ∧
    (∀ b : Bool, (retryGateOps b).count true = (retryGateOps b).count false) := by
  refine ⟨rfl, ?_, ?_, ?_⟩
  · intro C n ps h
    induction h with
    | refl =>
      simp [runningCount, List.countP_replicate]
    | tail _hsteps hstep ih =>
      cases hstep with
      | acquire i hidle hc =>
        rw [runningCount_acquire _ i hidle]
        omega
      | release i hrun =>
        have := runningCount_release _ i hrun
        omega
  · intro C ps qs hstep hs
    cases hstep with
    | acquire i hidle hc => omega
    | release i hrun =>
      have := runningCount_release ps i hrun
      omega
  · intro b
    cases b <;> rfl

/-- Witness for C7: 40 idle callers against the default limit stay
within bound in the initial state, and a saturated single-permit gate
only steps by a release that lowers the running count. -/
theorem gate_concurrency_bound_witness :
    runningCount (List.replicate 40 ProcPhase.idle) ≤ 32 ∧
    runningCount [ProcPhase.done] < runningCount [ProcPhase.running] :=
  ⟨gate_concurrency_bound.2.1 32 40 (List.replicate 40 ProcPhase.idle)
      Relation.ReflTransGen.refl,
   gate_concurrency_bound.2.2.1 1 [ProcPhase.running] [ProcPhase.done]
      (GateStep.release [ProcPhase.running] 0 rfl) (by decide)⟩

end Zookeeper
